import Mathlib

/-!
Shallow embedding of `src/treeomics/tree_inference.py` (the tree-inference
orchestration layer of treeomics) together with the parts of the engine the
claims depend on.  The two entry points `infer_max_compatible_tree` and
`create_max_lh_tree` are translated statement by statement; the external
solver classes (`SimplePhylogeny.find_max_compatible_tree`,
`MaxLHPhylogeny.infer_max_lh_tree`), which live outside the visible source,
are either modelled from the specification (simple path) or abstracted as an
oracle argument supplying the solver outcome (max-likelihood path).

The Python float division raising `ZeroDivisionError` on a zero divisor is
embedded by `Except`; the interpolated numbers of caption strings are kept as
rationals; the float NaN value is the `nan` constructor of `PyFloat`.  Side
effects (file writes, latex calls, logging) are recorded in an effect list.
-/

/-- Exceptions that the embedded code can raise. -/
inductive PyError where
  | zeroDivisionError
deriving DecidableEq, Repr

/-- Python float values as far as the embedded code distinguishes them:
an exact rational or `nan` (the float NaN value). -/
inductive PyFloat where
  | num (q : ℚ)
  | nan
deriving DecidableEq, Repr

/-- Python float division `a / b` of a nonnegative integer by a `PyFloat`:
dividing by `nan` yields `nan`, dividing by zero raises `ZeroDivisionError`. -/
def pyDivCast (a : ℕ) (b : PyFloat) : Except PyError PyFloat :=
  match b with
  | .nan => .ok .nan
  | .num q => if q = 0 then .error .zeroDivisionError else .ok (.num ((a : ℚ) / q))

/-- Observable side effects of the orchestration layer: file outputs,
external calls and the log lines the claims mention. -/
inductive Effect where
  | solveAttempt
  | logInfo
  | logWarnNoTree
  | logWarnImportError
  | eteTree (path : String)
  | tikzFigure (path : String)
  | branchMutInfo (path : String)
  | artifactInfo (path : String)
  | pdflatexCall (path : String)
  | mutationMatrix (path : String)
  | mutationPatterns (path : String)
deriving DecidableEq, Repr

/-- Effects that produce an output file (figure, latex, pdf, matrix or
pattern tables), as opposed to pure logging or the solve itself. -/
def Effect.isFileWrite : Effect → Bool
  | .eteTree _ => true
  | .tikzFigure _ => true
  | .branchMutInfo _ => true
  | .artifactInfo _ => true
  | .pdflatexCall _ => true
  | .mutationMatrix _ => true
  | .mutationPatterns _ => true
  | _ => false

/-- `True` iff an `Except` value is a normal result (no exception escaped). -/
def isOkE {α : Type} : Except PyError α → Bool
  | .ok _ => true
  | .error _ => false

/-- `sum(len(v) for k, v in d.items())` over an association list `d`. -/
def sumLens (d : List (ℕ × List ℕ)) : ℕ :=
  (d.map (fun p => p.2.length)).sum

/-- Insert into a sorted list (ascending). -/
def insertSorted (x : ℕ) : List ℕ → List ℕ
  | [] => [x]
  | y :: ys => if x ≤ y then x :: y :: ys else y :: insertSorted x ys

/-- Ascending insertion sort, used to embed `np.median`. -/
def sortNat (l : List ℕ) : List ℕ :=
  l.foldr insertSorted []

/-- `np.median` on a nonempty list of natural numbers (exact rational value:
middle element, or mean of the two middle elements). -/
def npMedian (l : List ℕ) : ℚ :=
  let s := sortNat l
  let n := l.length
  if n % 2 = 1 then (s.getD (n / 2) 0 : ℚ)
  else ((s.getD (n / 2 - 1) 0 : ℚ) + (s.getD (n / 2) 0 : ℚ)) / 2

/-- The patient data structure, restricted to the fields the orchestration
layer reads: the sample names, the variant collection (`variants.values()`,
each value being a list of mutation ids), the set of mutations present in at
least one sample, and the mutation pattern (sample subset) of each mutation. -/
structure Patient where
  sample_names : List String
  variants : List (List ℕ)
  present_mutations : Finset ℕ
  mutPattern : ℕ → Finset ℕ

/-- Modelled from the spec: two mutation patterns with sample subsets `P` and
`Q` are compatible iff `P ∩ Q ∈ {∅, P, Q}` (the infinite-sites compatibility
test of the Mutation Pattern Model, which lives outside the visible source). -/
def compatiblePatterns (P Q : Finset ℕ) : Bool :=
  decide (P ∩ Q = ∅) || decide (P ∩ Q = P) || decide (P ∩ Q = Q)

/-! ## Simple path: `infer_max_compatible_tree` -/

/-- The `SimplePhylogeny` object as the orchestration layer reads it after
`find_max_compatible_tree`: the partition of the present mutations into
compatible and conflicting ones, and the inferred tree. -/
structure SimplePhylogenyR where
  compatible_mutations : Finset ℕ
  conflicting_mutations : Finset ℕ
  tree : Finset (Finset ℕ)
deriving DecidableEq

/-- Modelled from the spec: `SimplePhylogeny.find_max_compatible_tree`
(outside the visible source) selects a maximum-weight conflict-free subset
`selected` of patterns; mutations whose pattern is selected are compatible,
all other present mutations are reported as conflicting/ignored.  The ILP
selection itself is abstracted as the argument `selected`. -/
def mkSimplePhylogeny (patient : Patient) (selected : Finset (Finset ℕ)) :
    SimplePhylogenyR :=
  { compatible_mutations :=
      patient.present_mutations.filter (fun m => patient.mutPattern m ∈ selected)
    conflicting_mutations :=
      patient.present_mutations.filter (fun m => patient.mutPattern m ∉ selected)
    tree := selected }

/-- The numbers interpolated into the simple-path caption string
(lines 40-44 of the source): excluded (conflicting) count, total present
count, and the exclusion fraction. -/
structure SimpleCaption where
  excluded : ℕ
  total : ℕ
  fraction : ℚ
deriving DecidableEq, Repr

/-- Lines 39-44: `no_present_muts = len(compatible)+len(conflicting)` and the
caption with `float(len(conflicting)) / no_present_muts`; Python raises
`ZeroDivisionError` when `no_present_muts` is zero. -/
def simpleCaption (ph : SimplePhylogenyR) : Except PyError SimpleCaption :=
  let no_present_muts := ph.compatible_mutations.card + ph.conflicting_mutations.card
  if no_present_muts = 0 then .error .zeroDivisionError
  else .ok { excluded := ph.conflicting_mutations.card
             total := no_present_muts
             fraction := (ph.conflicting_mutations.card : ℚ) / (no_present_muts : ℚ) }

/-- Result of one run of `infer_max_compatible_tree`: the effects performed,
the caption that was built (when reached), and the returned value or the
exception that escaped. -/
structure SimpleRun where
  effects : List Effect
  caption : Option SimpleCaption
  result : Except PyError SimplePhylogenyR

/-- Embedding of `infer_max_compatible_tree` (source lines 21-72): construct
the phylogeny, run the solver, build the caption (which divides by the number
of present mutations), then write the tikz figure and the branch-mutation
info to `filepath`, and return the phylogeny object. -/
def infer_max_compatible_tree (filepath : String) (patient : Patient)
    (selected : Finset (Finset ℕ)) : SimpleRun :=
  let phylogeny := mkSimplePhylogeny patient selected
  match simpleCaption phylogeny with
  | .error e => { effects := [.solveAttempt], caption := none, result := .error e }
  | .ok cap =>
      { effects := [.solveAttempt, .tikzFigure filepath, .branchMutInfo filepath]
        caption := some cap
        result := .ok phylogeny }

/-! ## Max-likelihood path: `create_max_lh_tree` -/

/-- The fields of the `MaxLHPhylogeny` object that `create_max_lh_tree`
reads after `infer_max_lh_tree` has run: the inferred tree (or `none`), the
per-variant dictionaries of putative false-positive / false-negative /
ambiguous sample indices, the residual conflicting mutations (or `none`),
the maximum-likelihood mutations, and the founder mutations. -/
structure MLHOutcome where
  mlh_tree : Option (Finset (Finset ℕ))
  false_positives : List (ℕ × List ℕ)
  false_negatives : List (ℕ × List ℕ)
  false_negative_unknowns : List (ℕ × List ℕ)
  conflicting_mutations : Option (Finset ℕ)
  max_lh_mutations : Finset ℕ
  mlh_founders : Finset ℕ

/-- The arguments `create_max_lh_tree` forwards to
`MaxLHPhylogeny.infer_max_lh_tree` (source lines 98-100). -/
structure SolverArgs where
  subclone_detection : Bool
  max_no_mps : Option ℕ
  pool_size : ℕ
  time_limit : Option ℕ
  no_bootstrap_samples : ℕ
deriving DecidableEq, Repr

/-- The default of the `subclone_detection` keyword of `create_max_lh_tree`
in the source signature (line 75). -/
def subclone_detection_default : Bool := false

/-- The `MaxLHPhylogeny` object returned by `create_max_lh_tree`: the data
it was constructed from plus the solver outcome it carries afterwards
(in particular `mlh_tree`, which is `none` when no tree was inferred). -/
structure MaxLHPhylogenyR where
  patient : Patient
  loh_frequency : ℚ
  outcome : MLHOutcome

/-- The numbers interpolated into the residual-compatibility note
(source lines 113-116): conflicting count and fraction. -/
structure CompatInfo where
  count : ℕ
  fraction : ℚ
deriving DecidableEq, Repr

/-- The classification counts of source lines 107-111. -/
structure ClassCounts where
  fps : ℕ
  fns : ℕ
  fnus : ℕ
deriving DecidableEq, Repr

/-- The numbers interpolated into the max-likelihood caption
(source lines 121-126): artifact count, its stated denominator and fraction,
the classification counts, and the compatibility note (`none` embeds the
empty string). -/
structure MLCaption where
  artifacts : ℕ
  total : ℕ
  fraction : ℚ
  classification : ClassCounts
  compat : Option CompatInfo
deriving DecidableEq, Repr

/-- Source lines 112-118: when `conflicting_mutations` is not `None`, report
its size and `float(len(conflicting)) / (len(max_lh) + len(conflicting))`
(raising `ZeroDivisionError` on an empty denominator); otherwise the
compatibility note is the empty string, embedded as `none`. -/
def compatibilityInfo (oc : MLHOutcome) : Except PyError (Option CompatInfo) :=
  match oc.conflicting_mutations with
  | none => .ok none
  | some cm =>
      let denom := oc.max_lh_mutations.card + cm.card
      if denom = 0 then .error .zeroDivisionError
      else .ok (some { count := cm.card, fraction := (cm.card : ℚ) / (denom : ℚ) })

/-- Source lines 107-126: the classification counts are sums of the lengths
of the per-variant lists, and the caption states `no_fps + no_fns` putative
artifacts out of `len(sample_names) * len(present_mutations)`, dividing by
that product (raising `ZeroDivisionError` when it is zero). -/
def mlCaption (patient : Patient) (oc : MLHOutcome) (compat : Option CompatInfo) :
    Except PyError MLCaption :=
  let no_fps := sumLens oc.false_positives
  let no_fns := sumLens oc.false_negatives
  let no_fnus := sumLens oc.false_negative_unknowns
  let denom := patient.sample_names.length * patient.present_mutations.card
  if denom = 0 then .error .zeroDivisionError
  else .ok { artifacts := no_fps + no_fns
             total := denom
             fraction := ((no_fps + no_fns : ℕ) : ℚ) / (denom : ℚ)
             classification := { fps := no_fps, fns := no_fns, fnus := no_fnus }
             compat := compat }

/-- Source lines 128-133: the median number of mutations over
`patient.variants.values()`, guarded so that an empty variant collection
yields the float NaN value instead of calling `np.median` on an empty list. -/
def median_no_muts (patient : Patient) : PyFloat :=
  if patient.variants.length > 0 then .num (npMedian (patient.variants.map List.length))
  else .nan

/-- The ete-tree step (source lines 137-144): the plot when `plots.ete_tree`
can be imported, an ImportError warning otherwise. -/
def eteEffects (ete3_available : Bool) (fp : String) : List Effect :=
  if ete3_available then [.eteTree fp] else [.logWarnImportError]

/-- The tikz figure, latex additions and pdflatex call of source
lines 146-167, performed once `germline_distance` has been computed. -/
def tikzLatexEffects (fp : String) : List Effect :=
  [.tikzFigure (fp ++ "_full.tex"), .branchMutInfo fp, .artifactInfo fp,
   .pdflatexCall (fp ++ "_full.tex")]

/-- Source lines 135-167, the body of `if plots and tree_filepath is not
None`: the ete tree plot (or an ImportError warning when ete3 is missing),
then the tikz figure whose `germline_distance` argument divides the founder
count by `median_no_muts` (a `ZeroDivisionError` there aborts the branch
before the tikz file is written), the latex additions and the pdflatex call.
Returns the effects performed and the exception, if one was raised. -/
def plotsEffects (oc : MLHOutcome) (ete3_available : Bool) (fp : String)
    (median : PyFloat) : List Effect × Option PyError :=
  match pyDivCast oc.mlh_founders.card median with
  | .error err => (eteEffects ete3_available fp, some err)
  | .ok _ => (eteEffects ete3_available fp ++ tikzLatexEffects fp, none)

/-- Source lines 169-171: the mutation matrix is written iff `mm_filepath`
is given. -/
def mmEffects : Option String → List Effect
  | some p => [.mutationMatrix p]
  | none => []

/-- Source lines 173-174: the mutation-pattern table is written iff
`mp_filepath` is given. -/
def mpEffects : Option String → List Effect
  | some p => [.mutationPatterns p]
  | none => []

/-- Result of one run of `create_max_lh_tree`: the arguments passed to the
solver, the effects performed, the caption that was built (when reached), and
the returned value or the exception that escaped. -/
structure MLRun where
  solverCall : SolverArgs
  effects : List Effect
  caption : Option MLCaption
  result : Except PyError MaxLHPhylogenyR

/-- The guard `if plots and tree_filepath is not None` (source line 135):
the plot branch runs only when `plots` is set and a tree file path is given;
otherwise nothing is performed and no exception is possible. -/
def plotStep (oc : MLHOutcome) (ete3_available : Bool) (tree_filepath : Option String)
    (plots : Bool) (median : PyFloat) : List Effect × Option PyError :=
  match tree_filepath with
  | some fp => if plots then plotsEffects oc ete3_available fp median else ([], none)
  | none => ([], none)

/-- The body of `create_max_lh_tree` after the solver has run (source
lines 102-179), as a function of the outcome `oc` it left on the phylogeny
object: effects performed, caption built (when reached), and the returned
value or the escaped exception. -/
def createBody (patient : Patient) (loh_frequency : ℚ) (oc : MLHOutcome)
    (ete3_available : Bool) (tree_filepath mm_filepath mp_filepath : Option String)
    (plots : Bool) : List Effect × Option MLCaption × Except PyError MaxLHPhylogenyR :=
  let mlh_pg : MaxLHPhylogenyR :=
    { patient := patient, loh_frequency := loh_frequency, outcome := oc }
  match oc.mlh_tree with
  | none => ([.solveAttempt, .logWarnNoTree], none, .ok mlh_pg)
  | some _ =>
      match compatibilityInfo oc with
      | .error e => ([.solveAttempt], none, .error e)
      | .ok compat =>
          match mlCaption patient oc compat with
          | .error e => ([.solveAttempt, .logInfo], none, .error e)
          | .ok cap =>
              let plotRes := plotStep oc ete3_available tree_filepath plots
                (median_no_muts patient)
              match plotRes.2 with
              | some e =>
                  ([.solveAttempt, .logInfo] ++ plotRes.1, some cap, .error e)
              | none =>
                  ([.solveAttempt, .logInfo] ++ plotRes.1 ++ mmEffects mm_filepath ++
                     mpEffects mp_filepath, some cap, .ok mlh_pg)

/-- Embedding of `create_max_lh_tree` (source lines 75-179).  The external
solver `MaxLHPhylogeny.infer_max_lh_tree` is abstracted as `oracle`, a
function from the forwarded arguments to the outcome it leaves on the
phylogeny object; `ete3_available` abstracts whether `plots.ete_tree` can be
imported.  When the solver produces a tree, the compatibility note, the
classification counts, the caption and the median are computed, the plot
outputs are produced when `plots` is set and `tree_filepath` given, and the
mutation-matrix and mutation-pattern files are written when their paths are
given; when it produces no tree, only a warning is logged.  In all cases the
phylogeny object is returned. -/
def create_max_lh_tree (patient : Patient) (oracle : SolverArgs → MLHOutcome)
    (ete3_available : Bool) (tree_filepath mm_filepath mp_filepath : Option String)
    (subclone_detection : Bool) (loh_frequency : ℚ) (max_no_mps : Option ℕ)
    (time_limit : Option ℕ) (plots : Bool) (pool_size : ℕ)
    (no_bootstrap_samples : ℕ) : MLRun :=
  let args : SolverArgs :=
    { subclone_detection := subclone_detection, max_no_mps := max_no_mps
      pool_size := pool_size, time_limit := time_limit
      no_bootstrap_samples := no_bootstrap_samples }
  let b := createBody patient loh_frequency (oracle args) ete3_available
    tree_filepath mm_filepath mp_filepath plots
  { solverCall := args, effects := b.1, caption := b.2.1, result := b.2.2 }

/-! ## Concrete fixtures -/

/-- A file path used in concrete runs. -/
def fpath : String := "tree"

/-- A sample name used in concrete patients. -/
def sampleA : String := "LiM_1"

/-- A patient with no samples and no variants. -/
def emptyPatient : Patient :=
  { sample_names := [], variants := [], present_mutations := ∅,
    mutPattern := fun _ => ∅ }

/-- A patient with one sample and one present mutation. -/
def patient1 : Patient :=
  { sample_names := [sampleA], variants := [[0]], present_mutations := {0},
    mutPattern := fun _ => {0} }

/-- A patient with one sample, one present mutation, but an empty variant
collection. -/
def patientNoVar : Patient :=
  { sample_names := [sampleA], variants := [], present_mutations := {0},
    mutPattern := fun _ => {0} }

/-- A solver outcome with no inferred tree. -/
def ocNone : MLHOutcome :=
  { mlh_tree := none, false_positives := [], false_negatives := [],
    false_negative_unknowns := [], conflicting_mutations := none,
    max_lh_mutations := ∅, mlh_founders := ∅ }

/-- A solver outcome with an inferred tree and no residual conflicts. -/
def ocGood : MLHOutcome :=
  { mlh_tree := some {∅}, false_positives := [(0, [0])], false_negatives := [],
    false_negative_unknowns := [], conflicting_mutations := none,
    max_lh_mutations := {0}, mlh_founders := {0} }

/-- A solver outcome with an inferred tree and one residual conflict. -/
def ocConfl : MLHOutcome :=
  { ocGood with conflicting_mutations := some {5} }

/-- An oracle that never produces a tree. -/
def oracleNone : SolverArgs → MLHOutcome := fun _ => ocNone

/-- An oracle that always produces the conflict-free outcome. -/
def oracleGood : SolverArgs → MLHOutcome := fun _ => ocGood

/-- An oracle that always produces the outcome with a residual conflict. -/
def oracleConfl : SolverArgs → MLHOutcome := fun _ => ocConfl

/-! ## Helper lemmas -/

theorem mem_mmEffects (p : String) (o : Option String) :
    Effect.mutationMatrix p ∈ mmEffects o ↔ o = some p := by
  cases o <;> simp [mmEffects, eq_comm]

theorem mem_mpEffects (p : String) (o : Option String) :
    Effect.mutationPatterns p ∈ mpEffects o ↔ o = some p := by
  cases o <;> simp [mpEffects, eq_comm]

theorem mutationMatrix_not_mem_mpEffects (p : String) (o : Option String) :
    Effect.mutationMatrix p ∉ mpEffects o := by
  cases o <;> simp [mpEffects]

theorem mutationPatterns_not_mem_mmEffects (p : String) (o : Option String) :
    Effect.mutationPatterns p ∉ mmEffects o := by
  cases o <;> simp [mmEffects]

/-! ## Claims -/

/-- Claim C7: pattern compatibility — the intersection of the two sample
subsets being empty or one of the two subsets — is symmetric:
`compatible(P, Q) = compatible(Q, P)` for every pair of patterns. -/
theorem compatiblePatterns_symm (P Q : Finset ℕ) :
    compatiblePatterns P Q = compatiblePatterns Q P := by
  unfold compatiblePatterns
  rw [Finset.inter_comm]
  cases h1 : decide (Q ∩ P = ∅) <;> cases h2 : decide (Q ∩ P = P) <;>
    cases h3 : decide (Q ∩ P = Q) <;> simp [h1, h2, h3]

/-- Claim C3: after `find_max_compatible_tree`, the compatible and the
conflicting mutations are disjoint and together are exactly the mutations
present in at least one sample, and the reported exclusion fraction is
`len(conflicting) / (len(compatible) + len(conflicting))`. -/
theorem simple_partition_and_fraction (patient : Patient)
    (selected : Finset (Finset ℕ)) :
    Disjoint (mkSimplePhylogeny patient selected).compatible_mutations
        (mkSimplePhylogeny patient selected).conflicting_mutations ∧
      (mkSimplePhylogeny patient selected).compatible_mutations ∪
          (mkSimplePhylogeny patient selected).conflicting_mutations =
        patient.present_mutations ∧
      ∀ cap, simpleCaption (mkSimplePhylogeny patient selected) = .ok cap →
        cap.fraction =
          ((mkSimplePhylogeny patient selected).conflicting_mutations.card : ℚ) /
            (((mkSimplePhylogeny patient selected).compatible_mutations.card : ℚ) +
              ((mkSimplePhylogeny patient selected).conflicting_mutations.card : ℚ)) := by
  refine ⟨?_, ?_, ?_⟩
  · simp only [mkSimplePhylogeny]
    exact Finset.disjoint_filter_filter_neg _ _ _
  · simp only [mkSimplePhylogeny]
    exact Finset.filter_union_filter_neg_eq _ _
  · intro cap hcap
    simp only [simpleCaption] at hcap
    split at hcap
    · exact absurd hcap (by simp)
    · cases hcap
      push_cast
      rfl

/-- Witness for claim C3 at a concrete input: one present mutation whose
pattern is not selected, so it is conflicting and the exclusion fraction
is 1/1. -/
theorem simple_partition_and_fraction_witness :
    simpleCaption (mkSimplePhylogeny patient1 ∅) =
        .ok { excluded := 1, total := 1, fraction := 1 } ∧
      (1 : ℚ) =
        ((mkSimplePhylogeny patient1 ∅).conflicting_mutations.card : ℚ) /
          (((mkSimplePhylogeny patient1 ∅).compatible_mutations.card : ℚ) +
            ((mkSimplePhylogeny patient1 ∅).conflicting_mutations.card : ℚ)) :=
  ⟨by simp [simpleCaption, mkSimplePhylogeny, patient1, Finset.filter_singleton],
   (simple_partition_and_fraction patient1 ∅).2.2
    { excluded := 1, total := 1, fraction := 1 }
    (by simp [simpleCaption, mkSimplePhylogeny, patient1, Finset.filter_singleton])⟩

/-- Claim C2 counterexample: on a patient with zero samples and an empty
variant set, `infer_max_compatible_tree` does not fail fast with an
input-error report; it attempts the solve and then an unhandled
`ZeroDivisionError` from the summary-fraction computation escapes to the
caller. -/
theorem infer_empty_input_divzero_cex :
    (infer_max_compatible_tree fpath emptyPatient ∅).result =
        Except.error PyError.zeroDivisionError ∧
      Effect.solveAttempt ∈ (infer_max_compatible_tree fpath emptyPatient ∅).effects := by
  constructor
  · rfl
  · simp [infer_max_compatible_tree, mkSimplePhylogeny, emptyPatient, simpleCaption]

/-- Claim C2 (amended): neither entry point validates its input.  On an
input with no present mutations, `infer_max_compatible_tree` attempts the
solve and then raises an unhandled `ZeroDivisionError` in the
summary-fraction computation; on an input with zero samples,
`create_max_lh_tree` does the same whenever the solver returns a tree.  No
explicit input-error report is produced before the solve. -/
theorem no_input_validation_divzero :
    (∀ (fp : String) (patient : Patient) (selected : Finset (Finset ℕ)),
        patient.present_mutations = ∅ →
        (infer_max_compatible_tree fp patient selected).result =
            Except.error PyError.zeroDivisionError ∧
          Effect.solveAttempt ∈ (infer_max_compatible_tree fp patient selected).effects) ∧
      ∀ (patient : Patient) (oracle : SolverArgs → MLHOutcome) (ete3 : Bool)
        (tfp mm mp : Option String) (sub : Bool) (loh : ℚ) (mnm : Option ℕ)
        (tl : Option ℕ) (plots : Bool) (ps nbs : ℕ),
        patient.sample_names = [] →
        ((oracle ⟨sub, mnm, ps, tl, nbs⟩).mlh_tree).isSome = true →
        (create_max_lh_tree patient oracle ete3 tfp mm mp sub loh mnm tl
              plots ps nbs).result =
            Except.error PyError.zeroDivisionError ∧
          Effect.solveAttempt ∈
            (create_max_lh_tree patient oracle ete3 tfp mm mp sub loh mnm tl
              plots ps nbs).effects := by
  constructor
  · intro fp patient selected hp
    constructor
    · simp [infer_max_compatible_tree, mkSimplePhylogeny, simpleCaption, hp]
    · simp [infer_max_compatible_tree, mkSimplePhylogeny, simpleCaption, hp]
  · intro patient oracle ete3 tfp mm mp sub loh mnm tl plots ps nbs hs htree
    obtain ⟨t, ht⟩ := Option.isSome_iff_exists.mp htree
    have hcap : ∀ compat, mlCaption patient (oracle ⟨sub, mnm, ps, tl, nbs⟩) compat =
        Except.error PyError.zeroDivisionError := by
      intro compat
      simp [mlCaption, hs]
    cases hci : compatibilityInfo (oracle ⟨sub, mnm, ps, tl, nbs⟩) with
    | error e =>
        cases e
        constructor <;>
          simp [create_max_lh_tree, createBody, ht, hci]
    | ok compat =>
        constructor <;>
          simp [create_max_lh_tree, createBody, ht, hci, hcap]

/-- Witness for the amended claim C2 at concrete inputs: the empty patient
with the trivial selection on the simple path, and the empty patient with a
tree-producing oracle on the max-likelihood path. -/
theorem no_input_validation_divzero_witness :
    ((infer_max_compatible_tree fpath emptyPatient ∅).result =
        Except.error PyError.zeroDivisionError ∧
      Effect.solveAttempt ∈ (infer_max_compatible_tree fpath emptyPatient ∅).effects) ∧
      (create_max_lh_tree emptyPatient oracleGood true none none none false 0 none
            none true 0 0).result =
          Except.error PyError.zeroDivisionError ∧
        Effect.solveAttempt ∈
          (create_max_lh_tree emptyPatient oracleGood true none none none false 0 none
            none true 0 0).effects :=
  ⟨no_input_validation_divzero.1 fpath emptyPatient ∅ rfl,
   no_input_validation_divzero.2 emptyPatient oracleGood true none none none false 0
     none none true 0 0 rfl rfl⟩

/-- Claim C1: when `infer_max_lh_tree` produces no tree, `create_max_lh_tree`
performs no outputs (only the solve attempt and a warning log, no file
writes), builds no caption, and returns the phylogeny object — whose
`mlh_tree` field is `none`, the explicit status the caller reads — rather
than any partially-correct tree. -/
theorem create_max_lh_tree_none_no_outputs
    (patient : Patient) (oracle : SolverArgs → MLHOutcome) (ete3 : Bool)
    (tfp mm mp : Option String) (sub : Bool) (loh : ℚ) (mnm : Option ℕ)
    (tl : Option ℕ) (plots : Bool) (ps nbs : ℕ)
    (h : (oracle ⟨sub, mnm, ps, tl, nbs⟩).mlh_tree = none) :
    (create_max_lh_tree patient oracle ete3 tfp mm mp sub loh mnm tl plots
          ps nbs).effects = [Effect.solveAttempt, Effect.logWarnNoTree] ∧
      ((create_max_lh_tree patient oracle ete3 tfp mm mp sub loh mnm tl plots
          ps nbs).effects.filter Effect.isFileWrite) = [] ∧
      (create_max_lh_tree patient oracle ete3 tfp mm mp sub loh mnm tl plots
          ps nbs).caption = none ∧
      (create_max_lh_tree patient oracle ete3 tfp mm mp sub loh mnm tl plots
          ps nbs).result =
        Except.ok { patient := patient, loh_frequency := loh,
                    outcome := oracle ⟨sub, mnm, ps, tl, nbs⟩ } ∧
      ∃ ph, (create_max_lh_tree patient oracle ete3 tfp mm mp sub loh mnm tl plots
          ps nbs).result = Except.ok ph ∧ ph.outcome.mlh_tree = none := by
  refine ⟨?_, ?_, ?_, ?_, ?_⟩
  · simp [create_max_lh_tree, createBody, h]
  · simp [create_max_lh_tree, createBody, h, Effect.isFileWrite]
  · simp [create_max_lh_tree, createBody, h]
  · simp [create_max_lh_tree, createBody, h]
  · exact ⟨{ patient := patient, loh_frequency := loh,
             outcome := oracle ⟨sub, mnm, ps, tl, nbs⟩ },
      by simp [create_max_lh_tree, createBody, h], h⟩

/-- Witness for claim C1 at a concrete input: an oracle that produces no
tree, with all output paths given and plots enabled. -/
theorem create_max_lh_tree_none_no_outputs_witness :
    (create_max_lh_tree patient1 oracleNone true (some fpath) (some fpath)
          (some fpath) false 0 none none true 0 0).effects =
        [Effect.solveAttempt, Effect.logWarnNoTree] ∧
      ((create_max_lh_tree patient1 oracleNone true (some fpath) (some fpath)
          (some fpath) false 0 none none true 0 0).effects.filter
          Effect.isFileWrite) = [] ∧
      (create_max_lh_tree patient1 oracleNone true (some fpath) (some fpath)
          (some fpath) false 0 none none true 0 0).caption = none ∧
      (create_max_lh_tree patient1 oracleNone true (some fpath) (some fpath)
          (some fpath) false 0 none none true 0 0).result =
        Except.ok { patient := patient1, loh_frequency := 0, outcome := ocNone } ∧
      ∃ ph, (create_max_lh_tree patient1 oracleNone true (some fpath) (some fpath)
          (some fpath) false 0 none none true 0 0).result = Except.ok ph ∧
        ph.outcome.mlh_tree = none :=
  create_max_lh_tree_none_no_outputs patient1 oracleNone true (some fpath)
    (some fpath) (some fpath) false 0 none none true 0 0 rfl

/-- Claim C6: the subclone-detection flag forwarded to the solver is exactly
the `subclone_detection` argument of `create_max_lh_tree`, whose source
default is `False`; no property of the patient data or of the other inputs
changes the forwarded value. -/
theorem subclone_detection_only_explicit
    (patient : Patient) (oracle : SolverArgs → MLHOutcome) (ete3 : Bool)
    (tfp mm mp : Option String) (sub : Bool) (loh : ℚ) (mnm : Option ℕ)
    (tl : Option ℕ) (plots : Bool) (ps nbs : ℕ) :
    (create_max_lh_tree patient oracle ete3 tfp mm mp sub loh mnm tl plots
          ps nbs).solverCall =
        { subclone_detection := sub, max_no_mps := mnm, pool_size := ps,
          time_limit := tl, no_bootstrap_samples := nbs } ∧
      subclone_detection_default = false :=
  ⟨rfl, rfl⟩

/-- Claim C4: the reported false-positive count is the sum over variants of
the number of samples flagged false-positive, likewise for false-negatives
and false-negative-unknowns, and the caption states `no_fps + no_fns`
putative artifacts out of `len(sample_names) * len(present_mutations)`. -/
theorem ml_caption_counts (patient : Patient) (oc : MLHOutcome)
    (compat : Option CompatInfo)
    (h : patient.sample_names.length * patient.present_mutations.card ≠ 0) :
    mlCaption patient oc compat =
      Except.ok
        { artifacts := sumLens oc.false_positives + sumLens oc.false_negatives
          total := patient.sample_names.length * patient.present_mutations.card
          fraction :=
            ((sumLens oc.false_positives + sumLens oc.false_negatives : ℕ) : ℚ) /
              ((patient.sample_names.length * patient.present_mutations.card : ℕ) : ℚ)
          classification :=
            { fps := sumLens oc.false_positives, fns := sumLens oc.false_negatives
              fnus := sumLens oc.false_negative_unknowns }
          compat := compat } := by
  simp [mlCaption, h]

/-- Witness for claim C4 at a concrete input: one sample, one present
mutation, one false-positive flag. -/
theorem ml_caption_counts_witness :
    patient1.sample_names.length * patient1.present_mutations.card ≠ 0 ∧
      mlCaption patient1 ocGood none =
        Except.ok
          { artifacts := sumLens ocGood.false_positives + sumLens ocGood.false_negatives
            total := patient1.sample_names.length * patient1.present_mutations.card
            fraction :=
              ((sumLens ocGood.false_positives + sumLens ocGood.false_negatives : ℕ) : ℚ) /
                ((patient1.sample_names.length * patient1.present_mutations.card : ℕ) : ℚ)
            classification :=
              { fps := sumLens ocGood.false_positives, fns := sumLens ocGood.false_negatives
                fnus := sumLens ocGood.false_negative_unknowns }
            compat := none } :=
  ⟨by decide, ml_caption_counts patient1 ocGood none (by decide)⟩

theorem plotStep_none (oc : MLHOutcome) (ete3 : Bool) (plots : Bool)
    (median : PyFloat) : plotStep oc ete3 none plots median = ([], none) := rfl

theorem plotStep_not_plots (oc : MLHOutcome) (ete3 : Bool) (tfp : Option String)
    (median : PyFloat) : plotStep oc ete3 tfp false median = ([], none) := by
  cases tfp <;> simp [plotStep]

theorem mutationMatrix_not_mem_plotsEffects (p : String) (oc : MLHOutcome)
    (ete3 : Bool) (fp : String) (median : PyFloat) :
    Effect.mutationMatrix p ∉ (plotsEffects oc ete3 fp median).1 := by
  unfold plotsEffects
  cases pyDivCast oc.mlh_founders.card median <;>
    cases ete3 <;> simp [eteEffects, tikzLatexEffects]

theorem mutationPatterns_not_mem_plotsEffects (p : String) (oc : MLHOutcome)
    (ete3 : Bool) (fp : String) (median : PyFloat) :
    Effect.mutationPatterns p ∉ (plotsEffects oc ete3 fp median).1 := by
  unfold plotsEffects
  cases pyDivCast oc.mlh_founders.card median <;>
    cases ete3 <;> simp [eteEffects, tikzLatexEffects]

theorem mutationMatrix_not_mem_plotStep (p : String) (oc : MLHOutcome)
    (ete3 : Bool) (tfp : Option String) (plots : Bool) (median : PyFloat) :
    Effect.mutationMatrix p ∉ (plotStep oc ete3 tfp plots median).1 := by
  cases tfp with
  | none => simp [plotStep]
  | some fp =>
      cases plots with
      | false => simp [plotStep]
      | true => simpa [plotStep] using mutationMatrix_not_mem_plotsEffects p oc ete3 fp median

theorem mutationPatterns_not_mem_plotStep (p : String) (oc : MLHOutcome)
    (ete3 : Bool) (tfp : Option String) (plots : Bool) (median : PyFloat) :
    Effect.mutationPatterns p ∉ (plotStep oc ete3 tfp plots median).1 := by
  cases tfp with
  | none => simp [plotStep]
  | some fp =>
      cases plots with
      | false => simp [plotStep]
      | true => simpa [plotStep] using mutationPatterns_not_mem_plotsEffects p oc ete3 fp median

theorem createBody_ok_shape (patient : Patient) (loh : ℚ) (oc : MLHOutcome)
    (ete3 : Bool) (tfp mm mp : Option String) (plots : Bool) (t : Finset (Finset ℕ))
    (htree : oc.mlh_tree = some t)
    (hok : isOkE (createBody patient loh oc ete3 tfp mm mp plots).2.2 = true) :
    ∃ compat cap,
      compatibilityInfo oc = Except.ok compat ∧
        mlCaption patient oc compat = Except.ok cap ∧
        (plotStep oc ete3 tfp plots (median_no_muts patient)).2 = none ∧
        (createBody patient loh oc ete3 tfp mm mp plots).1 =
          [Effect.solveAttempt, Effect.logInfo] ++
            (plotStep oc ete3 tfp plots (median_no_muts patient)).1 ++
            mmEffects mm ++ mpEffects mp ∧
        (createBody patient loh oc ete3 tfp mm mp plots).2.1 = some cap ∧
        (createBody patient loh oc ete3 tfp mm mp plots).2.2 =
          Except.ok { patient := patient, loh_frequency := loh, outcome := oc } := by
  unfold createBody at hok ⊢
  simp only [htree] at hok ⊢
  cases hci : compatibilityInfo oc with
  | error e => simp [hci, isOkE] at hok
  | ok compat =>
      simp only [hci] at hok ⊢
      cases hml : mlCaption patient oc compat with
      | error e => simp [hml, isOkE] at hok
      | ok cap =>
          simp only [hml] at hok ⊢
          cases hpr : (plotStep oc ete3 tfp plots (median_no_muts patient)).2 with
          | some e => simp [hpr, isOkE] at hok
          | none =>
              refine ⟨compat, cap, rfl, hml, rfl, ?_, ?_, ?_⟩ <;> simp

theorem createBody_caption_compat (patient : Patient) (loh : ℚ) (oc : MLHOutcome)
    (ete3 : Bool) (tfp mm mp : Option String) (plots : Bool) (cap : MLCaption)
    (h : (createBody patient loh oc ete3 tfp mm mp plots).2.1 = some cap) :
    compatibilityInfo oc = Except.ok cap.compat := by
  unfold createBody at h
  cases htree : oc.mlh_tree with
  | none => simp [htree] at h
  | some t =>
      simp only [htree] at h
      cases hci : compatibilityInfo oc with
      | error e => simp [hci] at h
      | ok compat =>
          simp only [hci] at h
          cases hml : mlCaption patient oc compat with
          | error e => simp [hml] at h
          | ok cap0 =>
              simp only [hml] at h
              have hc : cap0.compat = compat := by
                simp only [mlCaption] at hml
                split at hml
                · exact absurd hml (by simp)
                · cases hml; rfl
              cases hpr : (plotStep oc ete3 tfp plots (median_no_muts patient)).2 with
              | some e =>
                  simp only [hpr] at h
                  simp at h
                  rw [← h, hc]
              | none =>
                  simp only [hpr] at h
                  simp at h
                  rw [← h, hc]

/-- Claim C5: the residual-conflict note is produced exactly when the solver
records a non-`None` `conflicting_mutations` set — then it reports the count
and the fraction `len(conflicting) / (len(max_lh_mutations) +
len(conflicting))` — and is empty when it is `None`; the caption built by
`create_max_lh_tree` carries exactly that note. -/
theorem ml_residual_conflict_reporting :
    (∀ oc : MLHOutcome, oc.conflicting_mutations = none →
        compatibilityInfo oc = Except.ok none) ∧
      (∀ (oc : MLHOutcome) (cm : Finset ℕ), oc.conflicting_mutations = some cm →
        oc.max_lh_mutations.card + cm.card ≠ 0 →
        compatibilityInfo oc =
          Except.ok (some { count := cm.card
                            fraction := (cm.card : ℚ) /
                              ((oc.max_lh_mutations.card + cm.card : ℕ) : ℚ) })) ∧
      ∀ (patient : Patient) (oracle : SolverArgs → MLHOutcome) (ete3 : Bool)
        (tfp mm mp : Option String) (sub : Bool) (loh : ℚ) (mnm : Option ℕ)
        (tl : Option ℕ) (plots : Bool) (ps nbs : ℕ) (cap : MLCaption),
        (create_max_lh_tree patient oracle ete3 tfp mm mp sub loh mnm tl plots
            ps nbs).caption = some cap →
        compatibilityInfo (oracle ⟨sub, mnm, ps, tl, nbs⟩) = Except.ok cap.compat := by
  refine ⟨?_, ?_, ?_⟩
  · intro oc h
    simp [compatibilityInfo, h]
  · intro oc cm h hden
    simp [compatibilityInfo, h, hden]
  · intro patient oracle ete3 tfp mm mp sub loh mnm tl plots ps nbs cap h
    exact createBody_caption_compat patient loh (oracle ⟨sub, mnm, ps, tl, nbs⟩)
      ete3 tfp mm mp plots cap h

/-- Witness for claim C5 at concrete outcomes: one with
`conflicting_mutations = None` (empty note) and one with a single residual
conflict out of one maximum-likelihood mutation (fraction 1/2). -/
theorem ml_residual_conflict_reporting_witness :
    compatibilityInfo ocGood = Except.ok none ∧
      compatibilityInfo ocConfl =
        Except.ok (some { count := ({5} : Finset ℕ).card
                          fraction := (({5} : Finset ℕ).card : ℚ) /
                            ((ocConfl.max_lh_mutations.card + ({5} : Finset ℕ).card : ℕ) : ℚ) }) :=
  ⟨ml_residual_conflict_reporting.1 ocGood rfl,
   ml_residual_conflict_reporting.2.1 ocConfl {5} rfl (by decide)⟩

/-- Claim C8: with an empty variant collection the median number of
mutations is set to `NaN` instead of raising, and the post-solve summary
path of `create_max_lh_tree` completes normally when no figure output is
requested (`tree_filepath` is `None`). -/
theorem median_nan_on_empty_variants
    (patient : Patient) (oracle : SolverArgs → MLHOutcome) (ete3 : Bool)
    (mm mp : Option String) (sub : Bool) (loh : ℚ) (mnm : Option ℕ)
    (tl : Option ℕ) (plots : Bool) (ps nbs : ℕ) (t : Finset (Finset ℕ))
    (hvar : patient.variants = [])
    (htree : (oracle ⟨sub, mnm, ps, tl, nbs⟩).mlh_tree = some t)
    (hconf : (oracle ⟨sub, mnm, ps, tl, nbs⟩).conflicting_mutations = none)
    (hden : patient.sample_names.length * patient.present_mutations.card ≠ 0) :
    median_no_muts patient = PyFloat.nan ∧
      isOkE (create_max_lh_tree patient oracle ete3 none mm mp sub loh mnm tl
          plots ps nbs).result = true := by
  constructor
  · simp [median_no_muts, hvar]
  · have hci : compatibilityInfo (oracle ⟨sub, mnm, ps, tl, nbs⟩) = Except.ok none := by
      simp [compatibilityInfo, hconf]
    simp [create_max_lh_tree, createBody, htree, hci, mlCaption, hden, plotStep, isOkE]

/-- Witness for claim C8 at a concrete input: a patient with one sample, one
present mutation and an empty variant collection, solved by a tree-producing
oracle, with no output paths. -/
theorem median_nan_on_empty_variants_witness :
    median_no_muts patientNoVar = PyFloat.nan ∧
      isOkE (create_max_lh_tree patientNoVar oracleGood true none none none false 0
          none none true 0 0).result = true :=
  median_nan_on_empty_variants patientNoVar oracleGood true none none false 0 none
    none true 0 0 {∅} rfl rfl rfl (by decide)

/-- Claim C10: each entry point returns the phylogeny object, not the tree
graph: every normal return of `infer_max_compatible_tree` is the
`SimplePhylogeny` instance, every normal return of `create_max_lh_tree` is
the `MaxLHPhylogeny` instance, and in the no-tree case `create_max_lh_tree`
still returns that instance normally. -/
theorem entry_points_return_phylogeny :
    (∀ (fp : String) (patient : Patient) (selected : Finset (Finset ℕ))
        (ph : SimplePhylogenyR),
        (infer_max_compatible_tree fp patient selected).result = Except.ok ph →
        ph = mkSimplePhylogeny patient selected) ∧
      (∀ (patient : Patient) (oracle : SolverArgs → MLHOutcome) (ete3 : Bool)
        (tfp mm mp : Option String) (sub : Bool) (loh : ℚ) (mnm : Option ℕ)
        (tl : Option ℕ) (plots : Bool) (ps nbs : ℕ) (ph : MaxLHPhylogenyR),
        (create_max_lh_tree patient oracle ete3 tfp mm mp sub loh mnm tl plots
            ps nbs).result = Except.ok ph →
        ph = { patient := patient, loh_frequency := loh,
               outcome := oracle ⟨sub, mnm, ps, tl, nbs⟩ }) ∧
      ∀ (patient : Patient) (oracle : SolverArgs → MLHOutcome) (ete3 : Bool)
        (tfp mm mp : Option String) (sub : Bool) (loh : ℚ) (mnm : Option ℕ)
        (tl : Option ℕ) (plots : Bool) (ps nbs : ℕ),
        (oracle ⟨sub, mnm, ps, tl, nbs⟩).mlh_tree = none →
        (create_max_lh_tree patient oracle ete3 tfp mm mp sub loh mnm tl plots
            ps nbs).result =
          Except.ok { patient := patient, loh_frequency := loh,
                      outcome := oracle ⟨sub, mnm, ps, tl, nbs⟩ } := by
  refine ⟨?_, ?_, ?_⟩
  · intro fp patient selected ph h
    unfold infer_max_compatible_tree at h
    cases hc : simpleCaption (mkSimplePhylogeny patient selected) with
    | error e => simp [hc] at h
    | ok cap =>
        simp only [hc] at h
        simp at h
        exact h.symm
  · intro patient oracle ete3 tfp mm mp sub loh mnm tl plots ps nbs ph h
    unfold create_max_lh_tree createBody at h
    cases htree : (oracle ⟨sub, mnm, ps, tl, nbs⟩).mlh_tree with
    | none => simp [htree] at h; exact h.symm
    | some t =>
        simp only [htree] at h
        cases hci : compatibilityInfo (oracle ⟨sub, mnm, ps, tl, nbs⟩) with
        | error e => simp [hci] at h
        | ok compat =>
            simp only [hci] at h
            cases hml : mlCaption patient (oracle ⟨sub, mnm, ps, tl, nbs⟩) compat with
            | error e => simp [hml] at h
            | ok cap =>
                simp only [hml] at h
                cases hpr : (plotStep (oracle ⟨sub, mnm, ps, tl, nbs⟩) ete3 tfp plots
                    (median_no_muts patient)).2 with
                | some e => simp [hpr] at h
                | none => simp [hpr] at h; exact h.symm
  · intro patient oracle ete3 tfp mm mp sub loh mnm tl plots ps nbs h
    simp [create_max_lh_tree, createBody, h]

/-- Witness for claim C10 at concrete inputs: a successful simple-path run
whose return value is the phylogeny instance, and a no-tree max-likelihood
run returning the phylogeny instance normally. -/
theorem entry_points_return_phylogeny_witness :
    mkSimplePhylogeny patient1 ({({0} : Finset ℕ)} : Finset (Finset ℕ)) =
        mkSimplePhylogeny patient1 ({({0} : Finset ℕ)} : Finset (Finset ℕ)) ∧
      (create_max_lh_tree patient1 oracleNone true none none none false 0 none
          none false 0 0).result =
        Except.ok { patient := patient1, loh_frequency := 0, outcome := ocNone } :=
  ⟨entry_points_return_phylogeny.1 fpath patient1 ({({0} : Finset ℕ)} : Finset (Finset ℕ))
      (mkSimplePhylogeny patient1 ({({0} : Finset ℕ)} : Finset (Finset ℕ)))
      (by simp [infer_max_compatible_tree, simpleCaption, mkSimplePhylogeny, patient1,
        Finset.filter_singleton]),
   entry_points_return_phylogeny.2.2 patient1 oracleNone true none none none false 0
     none none false 0 0 rfl⟩

/-- Claim C9: after a successful max-likelihood solve that completes
normally, the mutation-matrix file is written iff `mm_filepath` is given,
the mutation-pattern file iff `mp_filepath` is given, the figure/latex/pdf
outputs only when `plots` is set and `tree_filepath` is given, and with all
of these absent no file is written at all. -/
theorem ml_outputs_on_demand
    (patient : Patient) (oracle : SolverArgs → MLHOutcome) (ete3 : Bool)
    (tfp mm mp : Option String) (sub : Bool) (loh : ℚ) (mnm : Option ℕ)
    (tl : Option ℕ) (plots : Bool) (ps nbs : ℕ) (t : Finset (Finset ℕ))
    (htree : (oracle ⟨sub, mnm, ps, tl, nbs⟩).mlh_tree = some t)
    (hok : isOkE (create_max_lh_tree patient oracle ete3 tfp mm mp sub loh mnm tl
        plots ps nbs).result = true) :
    (∀ p, Effect.mutationMatrix p ∈
        (create_max_lh_tree patient oracle ete3 tfp mm mp sub loh mnm tl plots
          ps nbs).effects ↔ mm = some p) ∧
      (∀ p, Effect.mutationPatterns p ∈
        (create_max_lh_tree patient oracle ete3 tfp mm mp sub loh mnm tl plots
          ps nbs).effects ↔ mp = some p) ∧
      (∀ p, (Effect.eteTree p ∈
            (create_max_lh_tree patient oracle ete3 tfp mm mp sub loh mnm tl plots
              ps nbs).effects ∨
          Effect.tikzFigure p ∈
            (create_max_lh_tree patient oracle ete3 tfp mm mp sub loh mnm tl plots
              ps nbs).effects ∨
          Effect.branchMutInfo p ∈
            (create_max_lh_tree patient oracle ete3 tfp mm mp sub loh mnm tl plots
              ps nbs).effects ∨
          Effect.artifactInfo p ∈
            (create_max_lh_tree patient oracle ete3 tfp mm mp sub loh mnm tl plots
              ps nbs).effects ∨
          Effect.pdflatexCall p ∈
            (create_max_lh_tree patient oracle ete3 tfp mm mp sub loh mnm tl plots
              ps nbs).effects) → plots = true ∧ tfp ≠ none) ∧
      (mm = none → mp = none → tfp = none →
        ((create_max_lh_tree patient oracle ete3 tfp mm mp sub loh mnm tl plots
          ps nbs).effects.filter Effect.isFileWrite) = []) := by
  obtain ⟨compat, cap, hci, hml, hpr, heff, hcap, hres⟩ :=
    createBody_ok_shape patient loh (oracle ⟨sub, mnm, ps, tl, nbs⟩) ete3 tfp mm mp
      plots t htree hok
  have heffects : (create_max_lh_tree patient oracle ete3 tfp mm mp sub loh mnm tl
      plots ps nbs).effects =
      [Effect.solveAttempt, Effect.logInfo] ++
        (plotStep (oracle ⟨sub, mnm, ps, tl, nbs⟩) ete3 tfp plots
          (median_no_muts patient)).1 ++ mmEffects mm ++ mpEffects mp := heff
  refine ⟨?_, ?_, ?_, ?_⟩
  · intro p
    rw [heffects]
    simp [mem_mmEffects, mutationMatrix_not_mem_mpEffects p mp,
      mutationMatrix_not_mem_plotStep p (oracle ⟨sub, mnm, ps, tl, nbs⟩) ete3 tfp plots
        (median_no_muts patient)]
  · intro p
    rw [heffects]
    simp [mem_mpEffects, mutationPatterns_not_mem_mmEffects p mm,
      mutationPatterns_not_mem_plotStep p (oracle ⟨sub, mnm, ps, tl, nbs⟩) ete3 tfp plots
        (median_no_muts patient)]
  · intro p hmem
    cases tfp with
    | none =>
        exfalso
        rw [heffects, plotStep_none] at hmem
        cases mm <;> cases mp <;> simp [mmEffects, mpEffects] at hmem
    | some fp =>
        cases plots with
        | false =>
            exfalso
            rw [heffects, plotStep_not_plots] at hmem
            cases mm <;> cases mp <;> simp [mmEffects, mpEffects] at hmem
        | true => exact ⟨rfl, by simp⟩
  · intro hmm hmp htfp
    subst hmm; subst hmp; subst htfp
    rw [heffects, plotStep_none]
    simp [mmEffects, mpEffects, Effect.isFileWrite]

/-- Witness for claim C9 at a concrete input: a successful solve with all
output paths given and plots enabled; the mutation-matrix membership
equivalence follows by applying the theorem. -/
theorem ml_outputs_on_demand_witness :
    Effect.mutationMatrix fpath ∈
        (create_max_lh_tree patient1 oracleGood true (some fpath) (some fpath)
          (some fpath) false 0 none none true 0 0).effects ↔
      (some fpath : Option String) = some fpath :=
  (ml_outputs_on_demand patient1 oracleGood true (some fpath) (some fpath)
      (some fpath) false 0 none none true 0 0 ({∅} : Finset (Finset ℕ)) rfl
      (by decide)).1 fpath
